import Mathlib

/-!
Verification of the generation-dispatch core of inspect_ai
(src/inspect_ai/model/_model.py) against its specification.

The Python source is shallowly embedded: pure functions become Lean
functions, the contextvar-carried ambient state (usage ledgers, limits,
active model) is passed explicitly, and the tenacity retry loop is a
fuel-indexed step function.  Strings handled character-by-character in
the source (model-name parsing and substring matching) are embedded over
List Char so that evaluation is kernel-reducible.
-/

set_option maxRecDepth 4000

namespace InspectAI

/-! ## Model-name parsing and pattern matching (`ModelName`) -/

/-- Embedding of Python `str.split(sep)` for a one-character separator,
as used by `ModelName._parse_model` (`model.split("/")`). -/
def splitOnChar (sep : Char) : List Char → List (List Char)
  | [] => [[]]
  | c :: cs =>
    if c = sep then [] :: splitOnChar sep cs
    else
      match splitOnChar sep cs with
      | [] => [[c]]
      | r :: rs => (c :: r) :: rs

/-- Embedding of Python `"/".join(parts)`. -/
def joinSlash : List (List Char) → List Char
  | [] => []
  | [x] => x
  | x :: y :: rest => x ++ '/' :: joinSlash (y :: rest)

/-- ModelName._parse_model: split the spec string on "/"; with more than one
part the head is the api and the tail rejoined is the name, otherwise the api
is absent and the whole string is the name. -/
def parse_model (model : List Char) : Option (List Char) × List Char :=
  match splitOnChar '/' model with
  | p :: q :: rest => (some p, joinSlash (q :: rest))
  | _ => (none, model)

/-- Python list/string prefix test (helper for substring containment). -/
def isPrefixChars : List Char → List Char → Bool
  | [], _ => true
  | _ :: _, [] => false
  | a :: as, b :: bs => a = b && isPrefixChars as bs

/-- Embedding of the Python substring operator `needle in hay`. -/
def containsSub (needle : List Char) : List Char → Bool
  | [] => needle.isEmpty
  | b :: bs => isPrefixChars needle (b :: bs) || containsSub needle bs

/-- ModelName: parsed (api, name) pair from a spec string "api/name". -/
structure ModelName where
  api : List Char
  name : List Char
deriving DecidableEq

/-- ModelName.__init__ for a string argument: parse the spec; a ValueError is
raised (here: none) when the api part is absent. -/
def ModelName.ofChars (model : List Char) : Option ModelName :=
  match parse_model model with
  | (some api, name) => some ⟨api, name⟩
  | (none, _) => none

/-- ModelName.__eq__ for a string pattern: parse the pattern into optional
api and name; if (api is truthy and a substring of our api) and the name is a
substring of our name, return True, else return whether the name alone is a
substring of our name. -/
def ModelName.eqPattern (self : ModelName) (pattern : List Char) : Bool :=
  match parse_model pattern with
  | (api, name) =>
    if (match api with
        | some a => !a.isEmpty && containsSub a self.api
        | none => false) && containsSub name self.name
    then true
    else containsSub name self.name

/-! ## Chat message data model

The message classes live in `_chat_message.py` and `_util/content.py`
(declared outside the verified module and described by the data-model
section of the specification): a tagged message variant set
{system, user, assistant, tool} whose content is either plain text or a
list of typed content items, the assistant variant additionally carrying
optional reasoning text and tool calls, the tool variant carrying an
optional tool-call correlation id, function name and error. -/

/-- Typed content item (text, image, audio, video). -/
inductive Content
  | text (text : String)
  | image (image : String)
  | audio (audio : String)
  | video (video : String)
deriving DecidableEq

/-- Message content: plain text or an ordered list of content items. -/
inductive MsgContent
  | str (s : String)
  | items (l : List Content)
deriving DecidableEq

/-- Tool invocation record attached to assistant messages. -/
structure ToolCall where
  id : String
  function : String
deriving DecidableEq

/-- Chat message variants. -/
inductive ChatMessage
  | system (content : MsgContent)
  | user (content : MsgContent) (tool_call_id : Option (List String))
  | assistant (content : MsgContent) (reasoning : Option String)
      (tool_calls : Option (List ToolCall))
  | tool (content : MsgContent) (tool_call_id : Option String)
      (function : Option String) (error : Option String)
deriving DecidableEq

/-- Message role tag (stands for the Python class of a message). -/
inductive Role
  | system
  | user
  | assistant
  | tool
deriving DecidableEq

/-- Role of a message, used for the isinstance checks of the source. -/
def ChatMessage.role : ChatMessage → Role
  | .system _ => .system
  | .user _ _ => .user
  | .assistant _ _ _ => .assistant
  | .tool _ _ _ _ => .tool

/-- Content carried by a message. -/
def ChatMessage.content : ChatMessage → MsgContent
  | .system c => c
  | .user c _ => c
  | .assistant c _ _ => c
  | .tool c _ _ _ => c

/-- Construction `message_type(content=c)` with every other field left at
its default (user: no tool_call_id; assistant: no reasoning, no tool calls;
tool: no id, function or error), as performed by `combine_messages`. -/
def messageOfType (message_type : Role) (content : MsgContent) : ChatMessage :=
  match message_type with
  | .system => .system content
  | .user => .user content none
  | .assistant => .assistant content none none
  | .tool => .tool content none none none

/-! ## Consecutive-message collapsing -/

/-- combine_messages: combine the content of two messages into a fresh
message of the given type; text pairs are joined with a newline, item-list
pairs are concatenated, and a mixed pair wraps the text side as a single
text item before concatenation.  (The TypeError branch of the source is
unreachable here because `MsgContent` has exactly the two shapes.) -/
def combine_messages (a b : ChatMessage) (message_type : Role) : ChatMessage :=
  match a.content, b.content with
  | .str sa, .str sb => messageOfType message_type (.str (sa ++ "\n" ++ sb))
  | .items la, .items lb => messageOfType message_type (.items (la ++ lb))
  | .str sa, .items lb =>
      messageOfType message_type (.items (.text sa :: lb))
  | .items la, .str sb =>
      messageOfType message_type (.items (la ++ [.text sb]))

/-- consecutive_message_reducer: if the incoming message and the last
accumulated message both have the given type, replace the last accumulated
message with their combination, otherwise append the incoming message. -/
def consecutive_message_reducer (message_type : Role)
    (messages : List ChatMessage) (message : ChatMessage) : List ChatMessage :=
  match messages.getLast? with
  | some last =>
    if message.role = message_type ∧ last.role = message_type then
      messages.dropLast ++ [combine_messages last message message_type]
    else
      messages ++ [message]
  | none => messages ++ [message]

/-- user_message_reducer. -/
def user_message_reducer (messages : List ChatMessage) (message : ChatMessage) :
    List ChatMessage :=
  consecutive_message_reducer .user messages message

/-- assistant_message_reducer. -/
def assistant_message_reducer (messages : List ChatMessage)
    (message : ChatMessage) : List ChatMessage :=
  consecutive_message_reducer .assistant messages message

/-- collapse_consecutive_user_messages. -/
def collapse_consecutive_user_messages (messages : List ChatMessage) :
    List ChatMessage :=
  messages.foldl user_message_reducer []

/-- collapse_consecutive_assistant_messages. -/
def collapse_consecutive_assistant_messages (messages : List ChatMessage) :
    List ChatMessage :=
  messages.foldl assistant_message_reducer []

/-! ## Tool-result image extraction -/

/-- The isinstance(c, ContentImage) test of the source. -/
def isContentImage : Content → Bool
  | .image _ => true
  | _ => false

/-- tool_result_image_content_reducer: reduce the content of a tool message
into the images bound for a fabricated user message and the edited tool
content with each image replaced by a placeholder text item. -/
def tool_result_image_content_reducer (acc : List Content × List Content)
    (content : Content) : List Content × List Content :=
  match acc with
  | (new_user_message_content, edited_tool_message_content) =>
    match content with
    | .image i =>
        (new_user_message_content ++ [.image i],
         edited_tool_message_content ++
           [.text "Image content is included below."])
    | c => (new_user_message_content, edited_tool_message_content ++ [c])

/-- Python truthiness of `[message.tool_call_id] if message.tool_call_id
else []`: a missing or empty id contributes nothing. -/
def truthyIdList : Option String → List String
  | some s => if s.isEmpty then [] else [s]
  | none => []

/-- maybe_adding_user_message: if content is nonempty, append a fresh user
message carrying it, tagged with the pending tool-call ids. -/
def maybe_adding_user_message (messages : List ChatMessage)
    (content : List Content) (tool_call_ids : List String) :
    List ChatMessage :=
  if content ≠ [] then
    messages ++ [.user (.items content) (some tool_call_ids)]
  else messages

/-- tool_result_images_reducer over the accumulator
(processed messages, pending image content, pending tool-call ids). -/
def tool_result_images_reducer
    (accum : List ChatMessage × List Content × List String)
    (message : ChatMessage) :
    List ChatMessage × List Content × List String :=
  match accum with
  | (messages, pending_content, tool_call_ids) =>
    match message with
    | .tool (.items itemList) tcid fn _ =>
      if itemList.any isContentImage then
        match itemList.foldl tool_result_image_content_reducer ([], []) with
        | (new_user_message_content, edited_tool_message_content) =>
          (messages ++ [.tool (.items edited_tool_message_content) tcid fn none],
           pending_content ++ new_user_message_content,
           tool_call_ids ++ truthyIdList tcid)
      else
        (maybe_adding_user_message messages pending_content tool_call_ids
           ++ [message], [], [])
    | _ =>
      (maybe_adding_user_message messages pending_content tool_call_ids
         ++ [message], [], [])

/-- tool_result_images_as_user_message: reduce the sequence, then flush any
pending images left at the end. -/
def tool_result_images_as_user_message (messages : List ChatMessage) :
    List ChatMessage :=
  match messages.foldl tool_result_images_reducer ([], [], []) with
  | (chat_messages, user_message_content, tool_call_ids) =>
    maybe_adding_user_message chat_messages user_message_content tool_call_ids

/-! ## Reasoning-history resolution -/

/-- Generation configuration, restricted to the fields the verified claims
touch: the tri-state reasoning_history flag (None means auto/include here),
and the retry bounds max_retries and timeout. -/
structure GenerateConfig where
  reasoning_history : Option Bool
  max_retries : Option Nat
  timeout : Option Nat
deriving DecidableEq

/-- The delimited reasoning block prepended by resolve_reasoning_history
when the api cannot represent reasoning natively: for text content the
block and a blank line are prefixed to the text, for item-list content a
text item holding the block is inserted at the front. -/
def prependThink (reasoning : String) : MsgContent → MsgContent
  | .str s => .str ("<think>\n" ++ reasoning ++ "\n</think>\n\n" ++ s)
  | .items l => .items (.text ("<think>\n" ++ reasoning ++ "\n</think>\n") :: l)

/-- resolve_reasoning_history: no-op without reasoning content; when the api
represents reasoning natively either strip it (config excludes) or pass
through (config includes); otherwise inline it as a think block and clear
the reasoning field (config includes) or pass through (config excludes). -/
def resolve_reasoning_history (messages : List ChatMessage)
    (config : GenerateConfig) (api_has_reasoning_history : Bool) :
    List ChatMessage :=
  let reasoning_history : Bool := config.reasoning_history ≠ some false
  let have_reasoning : Bool := messages.any fun m =>
    match m with
    | .assistant _ (some _) _ => true
    | _ => false
  if have_reasoning = false then messages
  else if api_has_reasoning_history then
    if reasoning_history = false then
      messages.map fun m =>
        match m with
        | .assistant c (some _) tc => .assistant c none tc
        | _ => m
    else messages
  else if reasoning_history then
    messages.map fun m =>
      match m with
      | .assistant c (some r) tc => .assistant (prependThink r c) none tc
      | _ => m
  else messages

/-! ## Usage ledger and token limit -/

/-- ModelUsage: token counts with optional prompt-cache counts. -/
structure ModelUsage where
  input_tokens : Nat
  output_tokens : Nat
  total_tokens : Nat
  input_tokens_cache_write : Option Nat
  input_tokens_cache_read : Option Nat
deriving DecidableEq

/-- The fresh ModelUsage() a ledger entry starts from. -/
def ModelUsage.zero : ModelUsage := ⟨0, 0, 0, none, none⟩

/-- The per-field accumulation performed inside set_model_usage: token
counts add; an optional cache count is added after defaulting the
accumulator side to 0, and is left untouched when the incoming side is
absent. -/
def ModelUsage.add (total usage : ModelUsage) : ModelUsage :=
  ⟨total.input_tokens + usage.input_tokens,
   total.output_tokens + usage.output_tokens,
   total.total_tokens + usage.total_tokens,
   match usage.input_tokens_cache_write with
   | some u => some ((total.input_tokens_cache_write.getD 0) + u)
   | none => total.input_tokens_cache_write,
   match usage.input_tokens_cache_read with
   | some u => some ((total.input_tokens_cache_read.getD 0) + u)
   | none => total.input_tokens_cache_read⟩

/-- Python dict lookup `model_usage.get(model, None)` over an
insertion-ordered association list. -/
def lookupUsage (model : String) : List (String × ModelUsage) → Option ModelUsage
  | [] => none
  | (k, v) :: rest => if k = model then some v else lookupUsage model rest

/-- Python dict assignment `model_usage[model] = v`: replace in place when
the key exists, else append. -/
def storeUsage (model : String) (v : ModelUsage) :
    List (String × ModelUsage) → List (String × ModelUsage)
  | [] => [(model, v)]
  | (k, w) :: rest =>
    if k = model then (model, v) :: rest else (k, w) :: storeUsage model v rest

/-- The body of set_model_usage for a present ledger: fetch the existing
accumulator (or a fresh one), add the usage into it, store it back. -/
def setUsageList (model : String) (usage : ModelUsage)
    (mu : List (String × ModelUsage)) : List (String × ModelUsage) :=
  storeUsage model (((lookupUsage model mu).getD ModelUsage.zero).add usage) mu

/-- set_model_usage: a no-op when the ledger for the scope is absent. -/
def set_model_usage (model : String) (usage : ModelUsage) :
    Option (List (String × ModelUsage)) → Option (List (String × ModelUsage))
  | none => none
  | some mu => some (setUsageList model usage mu)

/-- sample_total_tokens: the sum of total_tokens over every model of the
per-sample ledger. -/
def sample_total_tokens (mu : List (String × ModelUsage)) : Nat :=
  (mu.map fun p => p.2.total_tokens).sum

/-- SampleLimitExceededError payload: the limit kind, the measured value
and the configured limit. -/
structure SampleLimitError where
  kind : String
  value : Nat
  limit : Nat
deriving DecidableEq

/-- Result of record_model_usage: both updated ledgers (the contextvar
state made explicit) and the limit error raised, if any. -/
structure RecordUsageResult where
  sample_model_usage : Option (List (String × ModelUsage))
  model_usage : Option (List (String × ModelUsage))
  limit_error : Option SampleLimitError
deriving DecidableEq

/-- record_model_usage: add the usage to the per-sample and run-wide
ledgers, recompute the per-sample total across all models, and only then
compare it against the token limit, raising SampleLimitExceededError with
the measured total when the limit is strictly exceeded.  The ambient
contextvars (ledgers and active token limit) are explicit arguments; the
absent-ledger default of sample_total_tokens is the empty dict. -/
def record_model_usage (token_limit : Option Nat)
    (sample_mu run_mu : Option (List (String × ModelUsage)))
    (model : String) (usage : ModelUsage) : RecordUsageResult :=
  let sample' := set_model_usage model usage sample_mu
  let run' := set_model_usage model usage run_mu
  let total_tokens := sample_total_tokens (sample'.getD [])
  ⟨sample', run',
   match token_limit with
   | some limit =>
     if total_tokens > limit then some ⟨"token", total_tokens, limit⟩ else none
   | none => none⟩

/-! ## Message limit -/

/-- The input argument of Model.generate: a bare string or a message list. -/
inductive GenInput
  | str (s : String)
  | msgs (l : List ChatMessage)

/-- handle_sample_message_limit: count the outbound messages (a bare string
counts as one), and fail with SampleLimitExceededError before the call when
a message limit is configured and the count is already at or over it;
otherwise report the count (recorded as the sample total). -/
def handle_sample_message_limit (message_limit : Option Nat)
    (input : GenInput) : Except SampleLimitError Nat :=
  let total_messages := match input with
    | .str _ => 1
    | .msgs l => l.length
  match message_limit with
  | some limit =>
    if total_messages ≥ limit then
      .error ⟨"message", total_messages, limit⟩
    else .ok total_messages
  | none => .ok total_messages

/-- Minimal placeholder for ModelOutput (declared outside the verified
module): the claims only pass it through opaque continuations. -/
structure ModelOutput where
  completion : String
deriving DecidableEq

/-- The entry sequencing of Model.generate: when this model is the ambient
active one, handle_sample_message_limit runs first and its error aborts the
call; everything after the check (config merging, normalization, admission
and the retried call) is the continuation `rest`, which receives the input
untouched. -/
def generate_with_message_limit (is_active : Bool)
    (message_limit : Option Nat) (input : GenInput)
    (rest : GenInput → Except SampleLimitError ModelOutput) :
    Except SampleLimitError ModelOutput :=
  if is_active then
    match handle_sample_message_limit message_limit input with
    | .error e => .error e
    | .ok _ => rest input
  else rest input

/-! ## Retry policy -/

/-- Outcome of the tenacity-wrapped call: success, the original exception
re-raised when the retry predicate rejects it, a RetryError wrapping the
last exception when the stop condition fires, or fuel exhaustion of the
embedding (never reached by the theorems below). -/
inductive RetryOutcome (ε α : Type)
  | ok (a : α)
  | err (e : ε)
  | retryError (e : ε)
  | diverged
deriving DecidableEq

/-- One tenacity attempt loop, fuel-indexed: run the operation at the
current attempt number (starting from 1); return a success immediately;
re-raise an error the predicate classifies as not-rate-limit; for a
rate-limit error, raise a RetryError carrying it when the stop condition
holds at this attempt, else back off and retry at the next attempt. -/
def retryLoop (is_rate_limit : ε → Bool) (stop : Nat → Bool)
    (op : Nat → Except ε α) : Nat → Nat → RetryOutcome ε α
  | _, 0 => .diverged
  | attempt, fuel + 1 =>
    match op attempt with
    | .ok a => .ok a
    | .error e =>
      if is_rate_limit e then
        if stop attempt then .retryError e
        else retryLoop is_rate_limit stop op (attempt + 1) fuel
      else .err e

/-- The retried generate unit: attempts start at 1. -/
def runRetried (is_rate_limit : ε → Bool) (stop : Nat → Bool)
    (op : Nat → Except ε α) (fuel : Nat) : RetryOutcome ε α :=
  retryLoop is_rate_limit stop op 1 fuel

/-- The stop condition of Model._generate for the no-timeout case:
stop_after_attempt(max_retries) when max_retries is truthy (set and
nonzero), else stop_never.  stop_after_attempt(n) stops once the attempt
number has reached n.  (The timeout arm is wall-clock based and outside
this embedding; every claim below has no timeout configured.) -/
def retry_stop (max_retries : Option Nat) (attempt : Nat) : Bool :=
  match max_retries with
  | some n => if n = 0 then false else decide (n ≤ attempt)
  | none => false

/-! ## Theorems -/

/-- Claim C1 counterexample: the claim states that the parsed model name
built from "openai/gpt-4o" compares unequal to "anthropic/gpt-4o"; in the
code the comparison falls back to the name-substring test whenever the
api-and-name conjunction fails, and "gpt-4o" is a substring of "gpt-4o",
so the comparison returns true. -/
theorem modelName_anthropic_matches_counterexample :
    (ModelName.ofChars ("openai/gpt-4o".data)).map
        (fun nm => nm.eqPattern ("anthropic/gpt-4o".data)) = some true := by
  decide

/-- Claim C1 (amended): for the parsed model name built from
"openai/gpt-4o", comparing with "gpt-4o" returns true, comparing with
"anthropic/gpt-4o" also returns true (the family mismatch does not prevent
the name-substring fallback), and comparing with "openai/gpt" returns
true. -/
theorem modelName_matching :
    (ModelName.ofChars ("openai/gpt-4o".data)).map
        (fun nm => (nm.eqPattern ("gpt-4o".data),
          nm.eqPattern ("anthropic/gpt-4o".data),
          nm.eqPattern ("openai/gpt".data))) = some (true, true, true) := by
  decide

/-- Helper for the retry bound: when the operation fails with rate-limit
errors on attempts 1..R and succeeds on attempt R+1, the loop with
stop_after_attempt (R+1) reaches the successful attempt from any attempt
a ≤ R+1 given enough fuel. -/
theorem retryLoop_reaches_success {ε α : Type} (is_rate_limit : ε → Bool)
    (es : Nat → ε) (out : α) (op : Nat → Except ε α) (R : Nat)
    (herr : ∀ k, 1 ≤ k → k ≤ R → op k = .error (es k))
    (hrl : ∀ k, 1 ≤ k → k ≤ R → is_rate_limit (es k) = true) :
    op (R + 1) = .ok out →
    ∀ fuel a, 1 ≤ a → a ≤ R + 1 → R + 2 - a ≤ fuel →
      retryLoop is_rate_limit (retry_stop (some (R + 1))) op a fuel = .ok out := by
  intro hsucc fuel
  induction fuel with
  | zero => intro a _ h2 h3; exact absurd h3 (by omega)
  | succ fuel ih =>
    intro a h1 h2 h3
    rcases Nat.lt_or_ge a (R + 1) with hlt | hge
    · have haR : a ≤ R := by omega
      have hstop : retry_stop (some (R + 1)) a = false := by
        simp [retry_stop]
        omega
      have step :
          retryLoop is_rate_limit (retry_stop (some (R + 1))) op a (fuel + 1)
            = retryLoop is_rate_limit (retry_stop (some (R + 1))) op (a + 1)
                fuel := by
        simp [retryLoop, herr a h1 haR, hrl a h1 haR, hstop]
      rw [step]
      exact ih (a + 1) (by omega) (by omega) (by omega)
    · have ha : a = R + 1 := by omega
      subst ha
      simp [retryLoop, hsucc]

/-- Helper for the retry bound: with stop_after_attempt R and rate-limit
failures on attempts 1..R, the loop started at any attempt a ≤ R stops at
attempt R and raises a retry error carrying the last rate-limit error. -/
theorem retryLoop_stops_at_R {ε α : Type} (is_rate_limit : ε → Bool)
    (es : Nat → ε) (op : Nat → Except ε α) (R : Nat) (hR : 1 ≤ R)
    (herr : ∀ k, 1 ≤ k → k ≤ R → op k = .error (es k))
    (hrl : ∀ k, 1 ≤ k → k ≤ R → is_rate_limit (es k) = true) :
    ∀ fuel a, 1 ≤ a → a ≤ R → R + 1 - a ≤ fuel →
      retryLoop is_rate_limit (retry_stop (some R)) op a fuel
        = .retryError (es R) := by
  intro fuel
  induction fuel with
  | zero => intro a _ h2 h3; exact absurd h3 (by omega)
  | succ fuel ih =>
    intro a h1 h2 h3
    rcases Nat.lt_or_ge a R with hlt | hge
    · have hstop : retry_stop (some R) a = false := by
        simp [retry_stop]
        omega
      have step :
          retryLoop is_rate_limit (retry_stop (some R)) op a (fuel + 1)
            = retryLoop is_rate_limit (retry_stop (some R)) op (a + 1) fuel := by
        simp [retryLoop, herr a h1 h2, hrl a h1 h2, hstop]
      rw [step]
      exact ih (a + 1) (by omega) (by omega) (by omega)
    · have ha : a = R := by omega
      subst ha
      have hstop : retry_stop (some a) a = true := by
        simp [retry_stop]
        omega
      simp [retryLoop, herr a h1 h2, hrl a h1 h2, hstop]

/-- Claim C2 counterexample: take R = 1, an adapter raising a rate-limit
error on attempt 1 and succeeding on attempt 2.  The claim states that with
max_retries = R = 1 the retried unit returns the successful output; in the
code stop_after_attempt counts attempts, so the single allowed attempt
fails and the rate-limit error propagates (wrapped in a retry error) rather
than the success being returned. -/
theorem retry_bound_counterexample :
    runRetried (fun (_ : String) => true) (retry_stop (some 1))
        (fun k => if k ≤ 1 then Except.error "rate_limit" else Except.ok (0 : Nat))
        10
      = RetryOutcome.retryError "rate_limit" ∧
    runRetried (fun (_ : String) => true) (retry_stop (some 1))
        (fun k => if k ≤ 1 then Except.error "rate_limit" else Except.ok (0 : Nat))
        10
      ≠ RetryOutcome.ok 0 := by
  constructor
  · decide
  · decide

/-- Claim C2 (amended): for every adapter raising rate-limit-classified
errors on exactly the first R attempts and succeeding on the next one (no
timeout configured), the retried generate unit with max_retries = R + 1
returns the successful output on the last allowed attempt, while with
max_retries = R the retry loop terminates after attempt R and the last
rate-limit error propagates to the caller wrapped in a retry error:
max_retries bounds the number of attempts, not the number of retries. -/
theorem retry_bound {ε α : Type} (is_rate_limit : ε → Bool) (es : Nat → ε)
    (out : α) (op : Nat → Except ε α) (R fuel : Nat) (hR : 1 ≤ R)
    (hfuel : R + 1 ≤ fuel)
    (herr : ∀ k, 1 ≤ k → k ≤ R → op k = .error (es k))
    (hrl : ∀ k, 1 ≤ k → k ≤ R → is_rate_limit (es k) = true)
    (hsucc : op (R + 1) = .ok out) :
    runRetried is_rate_limit (retry_stop (some (R + 1))) op fuel = .ok out ∧
    runRetried is_rate_limit (retry_stop (some R)) op fuel
      = .retryError (es R) := by
  constructor
  · exact retryLoop_reaches_success is_rate_limit es out op R herr hrl hsucc
      fuel 1 (by omega) (by omega) (by omega)
  · exact retryLoop_stops_at_R is_rate_limit es op R hR herr hrl
      fuel 1 (by omega) hR (by omega)

/-- Witness for claim C2: R = 2, an adapter failing on attempts 1 and 2 and
succeeding on attempt 3 with output 7; max_retries = 3 succeeds while
max_retries = 2 raises the retry error. -/
theorem retry_bound_witness :
    runRetried (fun (_ : String) => true) (retry_stop (some 3))
        (fun k => if k ≤ 2 then Except.error "rate" else Except.ok (7 : Nat)) 5
      = RetryOutcome.ok 7 ∧
    runRetried (fun (_ : String) => true) (retry_stop (some 2))
        (fun k => if k ≤ 2 then Except.error "rate" else Except.ok (7 : Nat)) 5
      = RetryOutcome.retryError "rate" :=
  retry_bound (fun _ => true) (fun _ => "rate") 7
    (fun k => if k ≤ 2 then Except.error "rate" else Except.ok 7) 2 5
    (by omega) (by omega)
    (fun k _ h2 => by simp [h2])
    (fun k _ _ => rfl)
    (by norm_num)

/-- Claim C3: for an error raised at any attempt of the retried generate
unit, the loop retries only if is_rate_limit classifies it as retryable: a
non-retryable error terminates the loop on its first occurrence and
propagates unchanged; a retryable error either moves the loop to the next
attempt (stop condition not reached) or terminates it with a retry error
carrying the last rate-limit error (stop condition reached). -/
theorem retry_predicate {ε α : Type} (is_rate_limit : ε → Bool)
    (stop : Nat → Bool) (op : Nat → Except ε α) (attempt fuel : Nat) (e : ε)
    (hop : op attempt = .error e) :
    (is_rate_limit e = false →
      retryLoop is_rate_limit stop op attempt (fuel + 1) = .err e) ∧
    (is_rate_limit e = true → stop attempt = false →
      retryLoop is_rate_limit stop op attempt (fuel + 1)
        = retryLoop is_rate_limit stop op (attempt + 1) fuel) ∧
    (is_rate_limit e = true → stop attempt = true →
      retryLoop is_rate_limit stop op attempt (fuel + 1) = .retryError e) := by
  refine ⟨?_, ?_, ?_⟩
  · intro h
    simp [retryLoop, hop, h]
  · intro h hstop
    simp [retryLoop, hop, h, hstop]
  · intro h hstop
    simp [retryLoop, hop, h, hstop]

/-- Witness for claim C3: a loop whose operation raises the non-retryable
error "boom" at attempt 1 terminates immediately with exactly that
error. -/
theorem retry_predicate_witness :
    retryLoop (fun (s : String) => s == "rate") (fun _ => false)
        (fun _ => Except.error "boom") 1 (3 + 1)
      = RetryOutcome.err (α := Nat) "boom" :=
  (retry_predicate (fun s => s == "rate") (fun _ => false)
      (fun _ => Except.error "boom") 1 3 "boom" rfl).1 (by decide)

/-- Helper for the token limit: adding a usage into a ledger raises the
ledger-wide total of total_tokens by exactly the total_tokens of the
incoming usage, whether the model already has an entry or not. -/
theorem sample_total_tokens_setUsageList (m : String) (u : ModelUsage)
    (d : List (String × ModelUsage)) :
    sample_total_tokens (setUsageList m u d)
      = sample_total_tokens d + u.total_tokens := by
  induction d with
  | nil =>
    simp [setUsageList, storeUsage, lookupUsage, sample_total_tokens,
      ModelUsage.add, ModelUsage.zero]
  | cons hd tl ih =>
    obtain ⟨k, w⟩ := hd
    by_cases hk : k = m
    · subst hk
      simp [setUsageList, lookupUsage, storeUsage, sample_total_tokens,
        ModelUsage.add]
      omega
    · simp only [setUsageList, lookupUsage, storeUsage, hk, if_false,
        ite_false] at *
      simp only [sample_total_tokens, List.map_cons, List.sum_cons] at *
      omega

/-- Claim C4: with a run-wide token limit of 100, recording a first
successful call of 60 total tokens raises no error, while recording a
second call of 60 total tokens (its usage already added to the
accumulators) raises SampleLimitExceededError with measured value 120 and
limit 100, the measured value being the post-addition per-sample total.
Moreover the check is never pre-emptive: recording always adds the usage to
the ledger first, and the error is determined solely by the post-addition
total exceeding the limit. -/
theorem token_limit_overflow (m1 m2 : String) (u1 u2 : ModelUsage)
    (h1 : u1.total_tokens = 60) (h2 : u2.total_tokens = 60) :
    (record_model_usage (some 100) (some []) (some []) m1 u1).limit_error
      = none ∧
    (record_model_usage (some 100)
        (record_model_usage (some 100) (some []) (some []) m1 u1).sample_model_usage
        (record_model_usage (some 100) (some []) (some []) m1 u1).model_usage
        m2 u2).limit_error = some ⟨"token", 120, 100⟩ ∧
    sample_total_tokens
        ((record_model_usage (some 100)
            (record_model_usage (some 100) (some []) (some []) m1 u1).sample_model_usage
            (record_model_usage (some 100) (some []) (some []) m1 u1).model_usage
            m2 u2).sample_model_usage.getD []) = 120 ∧
    ∀ (limit : Nat) (d : List (String × ModelUsage))
        (r : Option (List (String × ModelUsage))) (m : String) (u : ModelUsage),
      sample_total_tokens
          ((record_model_usage (some limit) (some d) r m u).sample_model_usage.getD [])
        = sample_total_tokens d + u.total_tokens ∧
      ((record_model_usage (some limit) (some d) r m u).limit_error = none ↔
        sample_total_tokens d + u.total_tokens ≤ limit) := by
  have hsample :
      ∀ (limit : Nat) (d : List (String × ModelUsage))
        (r : Option (List (String × ModelUsage))) (m : String) (u : ModelUsage),
        (record_model_usage (some limit) (some d) r m u).sample_model_usage
          = some (setUsageList m u d) := by
    intro limit d r m u
    rfl
  have htot :
      ∀ (limit : Nat) (d : List (String × ModelUsage))
        (r : Option (List (String × ModelUsage))) (m : String) (u : ModelUsage),
        sample_total_tokens
            ((record_model_usage (some limit) (some d) r m u).sample_model_usage.getD [])
          = sample_total_tokens d + u.total_tokens := by
    intro limit d r m u
    rw [hsample]
    simp [sample_total_tokens_setUsageList]
  have herr :
      ∀ (limit : Nat) (d : List (String × ModelUsage))
        (r : Option (List (String × ModelUsage))) (m : String) (u : ModelUsage),
        (record_model_usage (some limit) (some d) r m u).limit_error
          = if sample_total_tokens d + u.total_tokens > limit then
              some ⟨"token", sample_total_tokens d + u.total_tokens, limit⟩
            else none := by
    intro limit d r m u
    simp [record_model_usage, set_model_usage, sample_total_tokens_setUsageList]
  have t1 : sample_total_tokens (setUsageList m1 u1 ([] : List (String × ModelUsage)))
      = 60 := by
    rw [sample_total_tokens_setUsageList]
    simp [sample_total_tokens, h1]
  refine ⟨?_, ?_, ?_, ?_⟩
  · rw [herr]
    simp [sample_total_tokens, h1]
  · rw [hsample 100 ([]) (some []) m1 u1, herr]
    rw [t1, h2]
    norm_num
  · rw [hsample 100 ([]) (some []) m1 u1, htot]
    rw [t1, h2]
  · intro limit d r m u
    exact ⟨htot limit d r m u, by rw [herr]; split <;> simp <;> omega⟩

/-- Witness for claim C4: two calls of 60 total tokens each by models "a"
and "b" under a limit of 100: the first records cleanly, the second raises
with measured value 120 and limit 100. -/
theorem token_limit_overflow_witness :
    (record_model_usage (some 100) (some []) (some [])
        "a" ⟨50, 10, 60, none, none⟩).limit_error = none ∧
    (record_model_usage (some 100)
        (record_model_usage (some 100) (some []) (some [])
          "a" ⟨50, 10, 60, none, none⟩).sample_model_usage
        (record_model_usage (some 100) (some []) (some [])
          "a" ⟨50, 10, 60, none, none⟩).model_usage
        "b" ⟨40, 20, 60, none, none⟩).limit_error = some ⟨"token", 120, 100⟩ ∧
    sample_total_tokens
        ((record_model_usage (some 100)
            (record_model_usage (some 100) (some []) (some [])
              "a" ⟨50, 10, 60, none, none⟩).sample_model_usage
            (record_model_usage (some 100) (some []) (some [])
              "a" ⟨50, 10, 60, none, none⟩).model_usage
            "b" ⟨40, 20, 60, none, none⟩).sample_model_usage.getD []) = 120 ∧
    ∀ (limit : Nat) (d : List (String × ModelUsage))
        (r : Option (List (String × ModelUsage))) (m : String) (u : ModelUsage),
      sample_total_tokens
          ((record_model_usage (some limit) (some d) r m u).sample_model_usage.getD [])
        = sample_total_tokens d + u.total_tokens ∧
      ((record_model_usage (some limit) (some d) r m u).limit_error = none ↔
        sample_total_tokens d + u.total_tokens ≤ limit) :=
  token_limit_overflow "a" "b" ⟨50, 10, 60, none, none⟩ ⟨40, 20, 60, none, none⟩
    rfl rfl

/-- Claim C5: with a message limit of 5 configured and this model active,
a generate call with an input of 5 messages fails with the message-limit
error before the adapter (or any later stage) is invoked - the result does
not depend on the continuation - while an input of 4 messages passes the
pre-emptive check and proceeds to the continuation on the unchanged
input. -/
theorem message_limit_preemptive (input5 input4 : List ChatMessage)
    (h5 : input5.length = 5) (h4 : input4.length = 4)
    (rest : GenInput → Except SampleLimitError ModelOutput) :
    generate_with_message_limit true (some 5) (.msgs input5) rest
      = .error ⟨"message", 5, 5⟩ ∧
    generate_with_message_limit true (some 5) (.msgs input4) rest
      = rest (.msgs input4) := by
  constructor
  · simp [generate_with_message_limit, handle_sample_message_limit, h5]
  · simp [generate_with_message_limit, handle_sample_message_limit, h4]

/-- Witness for claim C5: five system messages are rejected up front for
every continuation (here one returning a fixed output), four proceed. -/
theorem message_limit_preemptive_witness :
    generate_with_message_limit true (some 5)
        (.msgs [.system (.str "a"), .system (.str "b"), .system (.str "c"),
          .system (.str "d"), .system (.str "e")])
        (fun _ => Except.ok ⟨"done"⟩)
      = Except.error ⟨"message", 5, 5⟩ ∧
    generate_with_message_limit true (some 5)
        (.msgs [.system (.str "a"), .system (.str "b"), .system (.str "c"),
          .system (.str "d")])
        (fun _ => Except.ok ⟨"done"⟩)
      = (fun (_ : GenInput) => Except.ok (⟨"done"⟩ : ModelOutput))
          (.msgs [.system (.str "a"), .system (.str "b"), .system (.str "c"),
            .system (.str "d")]) :=
  message_limit_preemptive
    [.system (.str "a"), .system (.str "b"), .system (.str "c"),
      .system (.str "d"), .system (.str "e")]
    [.system (.str "a"), .system (.str "b"), .system (.str "c"),
      .system (.str "d")]
    rfl rfl (fun _ => Except.ok ⟨"done"⟩)

/-- Claim C6: a tool-result message whose content is exactly 3 image items
(carrying a correlation id) followed by one non-tool message is transformed
into: the tool message with each of its 3 images replaced by the fixed
placeholder text item, exactly one synthesized user message carrying the 3
extracted images and the 1 correlation id, inserted before the non-tool
message, which is passed through unchanged. -/
theorem image_extraction (i1 i2 i3 cid : String) (f err : Option String)
    (m : ChatMessage) (hcid : cid ≠ "") (hm : m.role ≠ .tool) :
    tool_result_images_as_user_message
        [.tool (.items [.image i1, .image i2, .image i3]) (some cid) f err, m]
      = [.tool (.items [.text "Image content is included below.",
            .text "Image content is included below.",
            .text "Image content is included below."]) (some cid) f none,
         .user (.items [.image i1, .image i2, .image i3]) (some [cid]),
         m] := by
  have hemp : cid.isEmpty = false := by
    rcases h : cid.isEmpty with _ | _
    · rfl
    · exact absurd ((String.isEmpty_iff cid).mp h) hcid
  cases m with
  | tool c t f2 e2 => exact absurd rfl hm
  | system c =>
    simp [tool_result_images_as_user_message, tool_result_images_reducer,
      tool_result_image_content_reducer, isContentImage, truthyIdList,
      maybe_adding_user_message, hemp]
  | user c t =>
    simp [tool_result_images_as_user_message, tool_result_images_reducer,
      tool_result_image_content_reducer, isContentImage, truthyIdList,
      maybe_adding_user_message, hemp]
  | assistant c r t =>
    simp [tool_result_images_as_user_message, tool_result_images_reducer,
      tool_result_image_content_reducer, isContentImage, truthyIdList,
      maybe_adding_user_message, hemp]

/-- Witness for claim C6: a tool message with three concrete images and id
"call1" followed by a user message. -/
theorem image_extraction_witness :
    tool_result_images_as_user_message
        [.tool (.items [.image "img1", .image "img2", .image "img3"])
          (some "call1") (some "mytool") none,
         .user (.str "next") none]
      = [.tool (.items [.text "Image content is included below.",
            .text "Image content is included below.",
            .text "Image content is included below."])
          (some "call1") (some "mytool") none,
         .user (.items [.image "img1", .image "img2", .image "img3"])
          (some ["call1"]),
         .user (.str "next") none] :=
  image_extraction "img1" "img2" "img3" "call1" (some "mytool") none
    (.user (.str "next") none) (by decide) (by decide)

/-- Claim C7: for a message sequence containing at least one assistant
message carrying reasoning, when the api cannot represent reasoning
natively: if the configuration does not exclude reasoning history, the
transform rewrites exactly the assistant messages carrying reasoning,
prepending the reasoning as a delimited think block to their content and
clearing the reasoning field, and leaves every other message unchanged; if
the configuration excludes reasoning history, the sequence is returned
unchanged. -/
theorem reasoning_history_inline (msgs : List ChatMessage)
    (config : GenerateConfig)
    (hr : ∃ m ∈ msgs, ∃ c r tc, m = ChatMessage.assistant c (some r) tc) :
    (config.reasoning_history = some false →
      resolve_reasoning_history msgs config false = msgs) ∧
    (config.reasoning_history ≠ some false →
      List.Forall₂ (fun m mr =>
          (∀ c r tc, m = ChatMessage.assistant c (some r) tc →
            mr = ChatMessage.assistant (prependThink r c) none tc) ∧
          ((∀ c r tc, m ≠ ChatMessage.assistant c (some r) tc) → mr = m))
        msgs (resolve_reasoning_history msgs config false)) := by
  have hhave : (msgs.any fun m =>
      match m with
      | .assistant _ (some _) _ => true
      | _ => false) = true := by
    rw [List.any_eq_true]
    obtain ⟨m, hmem, c, r, tc, rfl⟩ := hr
    exact ⟨_, hmem, rfl⟩
  constructor
  · intro hex
    simp [resolve_reasoning_history, hhave, hex]
  · intro hinc
    have hres : resolve_reasoning_history msgs config false
        = msgs.map fun m =>
            match m with
            | ChatMessage.assistant c (some r) tc =>
                ChatMessage.assistant (prependThink r c) none tc
            | _ => m := by
      simp [resolve_reasoning_history, hhave, hinc]
    rw [hres, List.forall₂_map_right_iff, List.forall₂_same]
    intro m hmem
    constructor
    · rintro c r tc rfl
      rfl
    · intro hne
      cases m with
      | assistant c r tc =>
        cases r with
        | none => rfl
        | some rr => exact absurd rfl (hne c rr tc)
      | system c => rfl
      | user c t => rfl
      | tool c t f e => rfl

/-- Witness for claim C7: a single assistant message with reasoning under a
configuration that does not exclude reasoning history. -/
theorem reasoning_history_inline_witness :
    List.Forall₂ (fun m mr =>
        (∀ c r tc, m = ChatMessage.assistant c (some r) tc →
          mr = ChatMessage.assistant (prependThink r c) none tc) ∧
        ((∀ c r tc, m ≠ ChatMessage.assistant c (some r) tc) → mr = m))
      [ChatMessage.assistant (.str "hi") (some "why") none]
      (resolve_reasoning_history
        [ChatMessage.assistant (.str "hi") (some "why") none]
        ⟨none, none, none⟩ false) :=
  (reasoning_history_inline
      [ChatMessage.assistant (.str "hi") (some "why") none]
      ⟨none, none, none⟩
      ⟨ChatMessage.assistant (.str "hi") (some "why") none,
        List.mem_singleton.mpr rfl, .str "hi", "why", none, rfl⟩).2
    (by simp)

/-- Helper: a message built by `message_type(content=c)` has that type. -/
theorem messageOfType_role (rc : Role) (c : MsgContent) :
    (messageOfType rc c).role = rc := by
  cases rc <;> rfl

/-- Helper: a message built by `message_type(content=c)` carries c. -/
theorem messageOfType_content (rc : Role) (c : MsgContent) :
    (messageOfType rc c).content = c := by
  cases rc <;> rfl

/-- Helper for the collapsing idempotence: folding the reducer for a role
over a sequence of plain-text messages of that same role, starting from an
accumulator that is empty or a single plain-text message of the role,
yields an accumulator of the same shape. -/
theorem collapse_invariant (rc : Role) (msgs : List ChatMessage) :
    ∀ acc,
      (acc = [] ∨
        ∃ a, acc = [a] ∧ a.role = rc ∧ ∃ s, a.content = MsgContent.str s) →
      (∀ m ∈ msgs, m.role = rc ∧ ∃ s, m.content = MsgContent.str s) →
      (msgs.foldl (consecutive_message_reducer rc) acc = [] ∨
        ∃ a, msgs.foldl (consecutive_message_reducer rc) acc = [a] ∧
          a.role = rc ∧ ∃ s, a.content = MsgContent.str s) := by
  induction msgs with
  | nil => intro acc hacc _; simpa using hacc
  | cons m rest ih =>
    intro acc hacc hall
    obtain ⟨hmr, sm, hms⟩ := hall m (List.mem_cons_self m rest)
    have hstep : consecutive_message_reducer rc acc m = [] ∨
        ∃ a, consecutive_message_reducer rc acc m = [a] ∧
          a.role = rc ∧ ∃ s, a.content = MsgContent.str s := by
      rcases hacc with rfl | ⟨a, rfl, har, sa, has⟩
      · exact Or.inr ⟨m, rfl, hmr, sm, hms⟩
      · have hcomb : combine_messages a m rc
            = messageOfType rc (.str (sa ++ "\n" ++ sm)) := by
          simp [combine_messages, has, hms]
        have hred : consecutive_message_reducer rc [a] m
            = [combine_messages a m rc] := by
          simp [consecutive_message_reducer, hmr, har]
        refine Or.inr ⟨combine_messages a m rc, hred, ?_, sa ++ "\n" ++ sm, ?_⟩
        · rw [hcomb, messageOfType_role]
        · rw [hcomb, messageOfType_content]
    rw [List.foldl_cons]
    exact ih _ hstep (fun x hx => hall x (List.mem_cons_of_mem _ hx))

/-- Helper: the reducer for a role leaves a sequence containing no message
of that role untouched (every step appends). -/
theorem collapse_ne_role (rc : Role) (msgs : List ChatMessage)
    (h : ∀ m ∈ msgs, m.role ≠ rc) :
    ∀ acc, msgs.foldl (consecutive_message_reducer rc) acc = acc ++ msgs := by
  induction msgs with
  | nil => intro acc; simp
  | cons m rest ih =>
    intro acc
    have hm := h m (List.mem_cons_self m rest)
    have hred : consecutive_message_reducer rc acc m = acc ++ [m] := by
      unfold consecutive_message_reducer
      cases hl : acc.getLast? with
      | none => rfl
      | some last => simp [hm]
    rw [List.foldl_cons, hred, ih (fun x hx => h x (List.mem_cons_of_mem _ hx))]
    simp

/-- Helper: the collapse fold for any role is idempotent on a sequence of
same-role plain-text messages, whether the sequence role matches the
collapse role (the fold then yields at most one message, a fixed point) or
not (the fold is then the identity). -/
theorem collapse_role_idempotent (rc r : Role) (msgs : List ChatMessage)
    (h : ∀ m ∈ msgs, m.role = r ∧ ∃ s, m.content = MsgContent.str s) :
    (msgs.foldl (consecutive_message_reducer rc) []).foldl
        (consecutive_message_reducer rc) []
      = msgs.foldl (consecutive_message_reducer rc) [] := by
  by_cases hr : r = rc
  · subst hr
    rcases collapse_invariant r msgs [] (Or.inl rfl) h with h0 | ⟨a, h0, _, _, _⟩
    · rw [h0]
      rfl
    · rw [h0]
      rfl
  · have hne : ∀ m ∈ msgs, m.role ≠ rc := by
      intro m hm hc
      exact hr ((h m hm).1 ▸ hc)
    have h1 : msgs.foldl (consecutive_message_reducer rc) [] = msgs := by
      rw [collapse_ne_role rc msgs hne []]
      simp
    rw [h1, h1]

/-- Claim C8: for every sequence of same-role messages (any role) with
plain text content, both consecutive-message collapsing transforms are
idempotent: collapsing twice equals collapsing once, for the user collapse
and for the assistant collapse. -/
theorem collapse_idempotent (r : Role) (msgs : List ChatMessage)
    (h : ∀ m ∈ msgs, m.role = r ∧ ∃ s, m.content = MsgContent.str s) :
    collapse_consecutive_user_messages
        (collapse_consecutive_user_messages msgs)
      = collapse_consecutive_user_messages msgs ∧
    collapse_consecutive_assistant_messages
        (collapse_consecutive_assistant_messages msgs)
      = collapse_consecutive_assistant_messages msgs :=
  ⟨collapse_role_idempotent .user r msgs h,
   collapse_role_idempotent .assistant r msgs h⟩

/-- Witness for claim C8: two plain-text assistant messages (one carrying
reasoning, one carrying a tool call): both collapses are idempotent on
them. -/
theorem collapse_idempotent_witness :
    collapse_consecutive_user_messages
        (collapse_consecutive_user_messages
          [ChatMessage.assistant (.str "a") (some "why") none,
           ChatMessage.assistant (.str "b") none (some [⟨"id1", "f"⟩])])
      = collapse_consecutive_user_messages
          [ChatMessage.assistant (.str "a") (some "why") none,
           ChatMessage.assistant (.str "b") none (some [⟨"id1", "f"⟩])] ∧
    collapse_consecutive_assistant_messages
        (collapse_consecutive_assistant_messages
          [ChatMessage.assistant (.str "a") (some "why") none,
           ChatMessage.assistant (.str "b") none (some [⟨"id1", "f"⟩])])
      = collapse_consecutive_assistant_messages
          [ChatMessage.assistant (.str "a") (some "why") none,
           ChatMessage.assistant (.str "b") none (some [⟨"id1", "f"⟩])] :=
  collapse_idempotent .assistant
    [ChatMessage.assistant (.str "a") (some "why") none,
     ChatMessage.assistant (.str "b") none (some [⟨"id1", "f"⟩])]
    (by
      intro m hm
      simp only [List.mem_cons, List.not_mem_nil, or_false] at hm
      rcases hm with rfl | rfl
      · exact ⟨rfl, "a", rfl⟩
      · exact ⟨rfl, "b", rfl⟩)

/-- Claim C9: collapsing a pair of consecutive assistant messages yields a
single message holding only the combination of the two content values: the
result is the same whatever reasoning or tool calls the inputs carried, and
its reasoning and tool-call fields are cleared. -/
theorem combined_assistant_drops_extras (ca cb : MsgContent)
    (ra rb : Option String) (ta tb : Option (List ToolCall)) :
    collapse_consecutive_assistant_messages
        [ChatMessage.assistant ca ra ta, ChatMessage.assistant cb rb tb]
      = [ChatMessage.assistant
          ((combine_messages (ChatMessage.assistant ca none none)
              (ChatMessage.assistant cb none none) .assistant).content)
          none none] := by
  cases ca <;> cases cb <;>
    simp [collapse_consecutive_assistant_messages, assistant_message_reducer,
      consecutive_message_reducer, combine_messages, messageOfType,
      ChatMessage.role, ChatMessage.content]

/-- Claim C10: a tool-result message holding images but no tool-call
correlation id has its images extracted into the pending buffer while the
pending correlation ids stay untouched, so the synthesized user message can
carry fewer correlation ids than the number of tool-result messages whose
images it holds: two single-image tool messages, the first without an id,
yield one synthesized user message with 2 images and 1 id. -/
theorem missing_correlation_id (msgs : List ChatMessage)
    (pending : List Content) (ids : List String) (itemList : List Content)
    (f err : Option String) (himg : itemList.any isContentImage = true)
    (i1 i2 cid : String) (f1 f2 e1 e2 : Option String) (hcid : cid ≠ "") :
    (tool_result_images_reducer (msgs, pending, ids)
        (.tool (.items itemList) none f err)).2.2 = ids ∧
    (tool_result_images_reducer (msgs, pending, ids)
        (.tool (.items itemList) none f err)).2.1
      = pending
          ++ (itemList.foldl tool_result_image_content_reducer ([], [])).1 ∧
    tool_result_images_as_user_message
        [.tool (.items [.image i1]) none f1 e1,
         .tool (.items [.image i2]) (some cid) f2 e2]
      = [.tool (.items [.text "Image content is included below."]) none f1
          none,
         .tool (.items [.text "Image content is included below."]) (some cid)
          f2 none,
         .user (.items [.image i1, .image i2]) (some [cid])] := by
  have hemp : cid.isEmpty = false := by
    rcases h : cid.isEmpty with _ | _
    · rfl
    · exact absurd ((String.isEmpty_iff cid).mp h) hcid
  refine ⟨?_, ?_, ?_⟩
  · simp [tool_result_images_reducer, himg, truthyIdList]
  · simp [tool_result_images_reducer, himg, truthyIdList]
  · simp [tool_result_images_as_user_message, tool_result_images_reducer,
      tool_result_image_content_reducer, isContentImage, truthyIdList,
      maybe_adding_user_message, hemp]

/-- Witness for claim C10: concrete buffers and images; the first tool
message has no correlation id, the second has id "id2". -/
theorem missing_correlation_id_witness :
    (tool_result_images_reducer ([], [], ["id0"])
        (.tool (.items [.image "x"]) none none none)).2.2 = ["id0"] ∧
    (tool_result_images_reducer ([], [], ["id0"])
        (.tool (.items [.image "x"]) none none none)).2.1
      = []
          ++ ([Content.image "x"].foldl tool_result_image_content_reducer
                ([], [])).1 ∧
    tool_result_images_as_user_message
        [.tool (.items [.image "p"]) none none none,
         .tool (.items [.image "q"]) (some "id2") none none]
      = [.tool (.items [.text "Image content is included below."]) none none
          none,
         .tool (.items [.text "Image content is included below."]) (some "id2")
          none none,
         .user (.items [.image "p", .image "q"]) (some ["id2"])] :=
  missing_correlation_id [] [] ["id0"] [.image "x"] none none (by decide)
    "p" "q" "id2" none none none none (by decide)

end InspectAI

